import Mathlib

/-!
Verification of the public-benchmark runner (`runPublicBenchmark.ts`).

The development shallowly embeds the program:
* data shapes (`ScenarioView`, `ScenarioRunView`, `ScenarioRunResult`) mirror
  the TypeScript interfaces;
* the remote platform client is an oracle record `Api` whose operations return
  `Except JsError _`, modelling promise rejection with a JavaScript error value;
* the per-item task (`attemptScenarioRunWithGoldenPatch`,
  `runScenarioWithReferenceSolution`) is embedded as a function that also emits
  the list of external calls it performs (`Event` trace);
* the batch orchestrator (`runNextBatch`) is embedded over an arbitrary chunk
  size `k` (the source fixes `k = CONCURRENT_RUNS = 50`), together with a
  launch/completion trace `batchTrace` reflecting that each batch's tasks are
  all launched synchronously before the orchestrator awaits them all.
-/

namespace PublicBenchmark

/-- A JavaScript error value as observed by `catch (e)`: it may carry a
`message` property, and `str` is its `String(e)` rendering. -/
structure JsError where
  message : Option String
  str : String
deriving DecidableEq

/-- The expression `e.message || String(e)` from the catch block: a missing or
empty (falsy) `message` falls back to the string form. -/
def errMsg (e : JsError) : String :=
  match e.message with
  | some m => if m = "" then e.str else m
  | none => e.str

/-- The error value of `throw new Error(m)`: `String(e)` is `"Error: " ++ m`. -/
def jsErrorOfMessage (m : String) : JsError :=
  { message := some m, str := "Error: " ++ m }

/-- JavaScript truthiness of a possibly-absent string: `undefined` and `""`
are falsy. -/
def strTruthy : Option String → Bool
  | some s => s ≠ ""
  | none => false

/-- The `input_context` field of a scenario. -/
structure InputContext where
  problem_statement : String
deriving DecidableEq

/-- The `scoring_contract` field of a scenario. -/
structure ScoringContract where
  scoring_function_parameters : List String
deriving DecidableEq

/-- Scenario details (`ScenarioView`). -/
structure ScenarioView where
  id : String
  name : String
  input_context : InputContext
  metadata : List (String × String)
  scoring_contract : ScoringContract
  reference_output : Option String
deriving DecidableEq

/-- The `scoring_contract_result` of a run; `score` may be absent. -/
structure ScoringContractResult where
  score : Option ℚ
deriving DecidableEq

/-- A scenario run (`ScenarioRunView`). -/
structure ScenarioRunView where
  id : String
  devbox_id : String
  scoring_contract_result : Option ScoringContractResult
deriving DecidableEq

/-- Result of attempting to run a scenario (`ScenarioRunResult`). -/
structure ScenarioRunResult where
  scenario : ScenarioView
  run : Option ScenarioRunView
  error : Option String
deriving DecidableEq

/-- `runCompleted`: `!!result.run && !result.error`. -/
def runCompleted (result : ScenarioRunResult) : Bool :=
  result.run.isSome && result.error.isNone

/-- `score`: `result.run?.scoring_contract_result?.score`. -/
def score (result : ScenarioRunResult) : Option ℚ :=
  (result.run.bind fun r => r.scoring_contract_result).bind fun c => c.score

/-- The remote platform client, as an oracle over its operations.  Each
operation either returns a value or rejects with a `JsError`. -/
structure Api where
  retrieve : String → Except JsError ScenarioView
  startRunAndAwaitEnvReady : String → Option String → Except JsError ScenarioRunView
  writeFileContents : String → String → String → Except JsError Unit
  executeSync : String → String → Except JsError Unit
  scoreAndAwait : String → Except JsError ScenarioRunView
  complete : String → Except JsError Unit
  listPublic : String → List ScenarioView

/-- External calls made by the per-item task, recorded in order.  `shutdown`
is never emitted by the per-item task (the source only calls
`devboxes.shutdown` in the `--force-clear-running-devboxes` preamble); it is
included so that its absence from per-item traces is expressible. -/
inductive Event where
  | retrieve (scenarioId : String)
  | startRun (scenarioId : String) (benchmarkRunId : Option String)
  | writeFile (devboxId : String) (path : String) (contents : String)
  | exec (devboxId : String) (command : String)
  | scoreRun (runId : String)
  | completeRun (runId : String)
  | keepDevboxRunning (devboxId : String)
  | shutdown (devboxId : String)
deriving DecidableEq

/-- The fixed path of the reference patch file. -/
def refPatchPath : String := "/home/user/ref.patch"

/-- The fixed patch-applying shell command. -/
def patchCommand : String := "cd /testbed && patch -p1 < /home/user/ref.patch"

/-- `runScenarioWithReferenceSolution`: start a run and await the devbox,
write the reference patch (`scenario.reference_output || ""`), apply it,
score, then complete the run unless `keepDevbox`.  Returns the trace of
external calls plus the run result or the first error raised. -/
def runScenarioWithReferenceSolution (api : Api) (scenario : ScenarioView)
    (benchmarkRunId : Option String) (keepDevbox : Bool) :
    List Event × Except JsError ScenarioRunView :=
  match api.startRunAndAwaitEnvReady scenario.id benchmarkRunId with
  | .error e => ([.startRun scenario.id benchmarkRunId], .error e)
  | .ok scenarioRun =>
    let t0 : List Event := [.startRun scenario.id benchmarkRunId]
    let contents := scenario.reference_output.getD ""
    match api.writeFileContents scenarioRun.devbox_id refPatchPath contents with
    | .error e => (t0 ++ [.writeFile scenarioRun.devbox_id refPatchPath contents], .error e)
    | .ok _ =>
      let t1 := t0 ++ [Event.writeFile scenarioRun.devbox_id refPatchPath contents]
      match api.executeSync scenarioRun.devbox_id patchCommand with
      | .error e => (t1 ++ [.exec scenarioRun.devbox_id patchCommand], .error e)
      | .ok _ =>
        let t2 := t1 ++ [Event.exec scenarioRun.devbox_id patchCommand]
        match api.scoreAndAwait scenarioRun.id with
        | .error e => (t2 ++ [.scoreRun scenarioRun.id], .error e)
        | .ok result =>
          let t3 := t2 ++ [Event.scoreRun scenarioRun.id]
          if keepDevbox then
            (t3 ++ [.keepDevboxRunning scenarioRun.devbox_id], .ok result)
          else
            match api.complete scenarioRun.id with
            | .error e => (t3 ++ [.completeRun scenarioRun.id], .error e)
            | .ok _ => (t3 ++ [.completeRun scenarioRun.id], .ok result)

/-- The minimal scenario object built in the catch block of
`attemptScenarioRunWithGoldenPatch`. -/
def placeholderScenario (scenarioId : String) : ScenarioView :=
  { id := scenarioId
    name := ""
    input_context := { problem_statement := "" }
    metadata := []
    scoring_contract := { scoring_function_parameters := [] }
    reference_output := none }

/-- `attemptScenarioRunWithGoldenPatch`: retrieve the scenario, run it, and
catch any failure of either step, converting it to a result carrying
`e.message || String(e)` and the placeholder scenario. -/
def attemptScenarioRunWithGoldenPatch (api : Api) (scenarioId : String)
    (benchmarkRunId : Option String) (keepDevbox : Bool) :
    List Event × ScenarioRunResult :=
  match api.retrieve scenarioId with
  | .error e =>
    ([.retrieve scenarioId],
     { scenario := placeholderScenario scenarioId, run := none, error := some (errMsg e) })
  | .ok scenario =>
    let p := runScenarioWithReferenceSolution api scenario benchmarkRunId keepDevbox
    (Event.retrieve scenarioId :: p.1,
     match p.2 with
     | .ok run => { scenario := scenario, run := some run, error := none }
     | .error e =>
       { scenario := placeholderScenario scenarioId, run := none, error := some (errMsg e) })

/-- The per-item task as the orchestrator sees it: the outcome of
`attemptScenarioRunWithGoldenPatch` for one scenario id. -/
def taskOf (api : Api) (benchmarkRunId : Option String) (keepDevbox : Bool)
    (scenarioId : String) : ScenarioRunResult :=
  (attemptScenarioRunWithGoldenPatch api scenarioId benchmarkRunId keepDevbox).2

/-- Maximum number of scenarios to run concurrently (`CONCURRENT_RUNS`). -/
def CONCURRENT_RUNS : Nat := 50

/-- `runNextBatch`: take up to `k` items from the cursor, run them all,
append the batch results, and recurse on the rest; stop when the batch is
empty. -/
def runNextBatch {α β : Type} (k : Nat) (task : α → β) : List α → List β
  | [] => []
  | x :: xs =>
    if k = 0 then []
    else ((x :: xs).take k).map task ++ runNextBatch k task ((x :: xs).drop k)
termination_by items => items.length
decreasing_by
  simp only [List.length_drop, List.length_cons]
  omega

/-- The consecutive batches the orchestrator dispatches: chunks of `k`
items, the last possibly smaller. -/
def batches {α : Type} (k : Nat) : List α → List (List α)
  | [] => []
  | x :: xs =>
    if k = 0 then []
    else (x :: xs).take k :: batches k ((x :: xs).drop k)
termination_by items => items.length
decreasing_by
  simp only [List.length_drop, List.length_cons]
  omega

/-- Scheduling events of the orchestrator: a task is launched, or a task
produces its outcome. -/
inductive BatchEvent (α : Type) where
  | launch (item : α)
  | complete (item : α)
deriving DecidableEq

/-- The orchestrator's schedule: for each batch, all launches (synchronous
loop pushing the promises, in input order) strictly precede all completions
of that batch (`await Promise.all`), and the whole batch precedes the next
recursive call. -/
def batchTrace {α : Type} (k : Nat) : List α → List (BatchEvent α)
  | [] => []
  | x :: xs =>
    if k = 0 then []
    else ((x :: xs).take k).map .launch ++ ((x :: xs).take k).map .complete
      ++ batchTrace k ((x :: xs).drop k)
termination_by items => items.length
decreasing_by
  simp only [List.length_drop, List.length_cons]
  omega

/-- Number of launch events in a schedule fragment. -/
def launches {α : Type} (t : List (BatchEvent α)) : Nat :=
  t.countP fun e => match e with | .launch _ => true | .complete _ => false

/-- Number of completion events in a schedule fragment. -/
def completes {α : Type} (t : List (BatchEvent α)) : Nat :=
  t.countP fun e => match e with | .launch _ => false | .complete _ => true

/-- Summary: the successes, `results.filter(runCompleted)`. -/
def successes (results : List ScenarioRunResult) : List ScenarioRunResult :=
  results.filter runCompleted

/-- Summary: the failures, `results.filter((r) => !runCompleted(r))`. -/
def failures (results : List ScenarioRunResult) : List ScenarioRunResult :=
  results.filter fun r => !runCompleted r

/-- Summary: successes with score exactly `1.0`. -/
def successAndPassing (results : List ScenarioRunResult) : List ScenarioRunResult :=
  (successes results).filter fun r => decide (score r = some 1)

/-- Summary: successes with score not equal to `1.0`. -/
def successAndFailing (results : List ScenarioRunResult) : List ScenarioRunResult :=
  (successes results).filter fun r => decide (score r ≠ some 1)

/-- Parsed command-line options.  String options are `none` when the flag is
absent; providing a flag with an empty value yields `some ""` (present but
falsy). -/
structure Argv where
  benchmarkId : Option String
  scenarioId : Option String
  scenarioName : Option String
  keepDevbox : Bool
  forceClearRunningDevboxes : Bool
deriving DecidableEq

/-- The `.conflicts("benchmark-id", ["scenario-id", "scenario-name"])`
declaration: yargs rejects the parse when `benchmark-id` is present together
with `scenario-id` or with `scenario-name`.  No conflict is declared between
`scenario-id` and `scenario-name`. -/
def conflictsCheck (a : Argv) : Except String Unit :=
  if a.benchmarkId.isSome && (a.scenarioId.isSome || a.scenarioName.isSome) then
    .error "Arguments benchmark-id and scenario-id/scenario-name are mutually exclusive"
  else .ok ()

/-- The custom `.check` callback: fail when none of the three selector flags
has a truthy value. -/
def selectorsCheck (a : Argv) : Except String Unit :=
  if !strTruthy a.benchmarkId && !strTruthy a.scenarioId && !strTruthy a.scenarioName then
    .error "Either --benchmark-id or --scenario-id or --scenario-name must be provided"
  else .ok ()

/-- Argument validation: the parse succeeds only if both the declared
conflicts and the custom check pass. -/
def parseArgs (a : Argv) : Except String Argv :=
  match conflictsCheck a with
  | .error m => .error m
  | .ok _ =>
    match selectorsCheck a with
    | .error m => .error m
    | .ok _ => .ok a

/-- The single-scenario branch of `main` (lines 165–184): take
`argv["scenario-id"]` if truthy; otherwise, when a scenario name is given,
list public scenarios by that name, failing if there are zero matches and
taking the first match otherwise; finally fail if the resulting id is still
falsy. -/
def resolveScenarioId (api : Api) (a : Argv) : Except JsError String :=
  let afterLookup : Except JsError (Option String) :=
    if !strTruthy a.scenarioId && strTruthy a.scenarioName then
      match api.listPublic (a.scenarioName.getD "") with
      | [] =>
        .error (jsErrorOfMessage
          ("Scenario with name " ++ a.scenarioName.getD "" ++ " not found"))
      | s :: _ => .ok (some s.id)
    else .ok a.scenarioId
  match afterLookup with
  | .error e => .error e
  | .ok sid => if strTruthy sid then .ok (sid.getD "") else
      .error (jsErrorOfMessage "No scenario ID found")

/-- The single-scenario branch end to end: resolve the scenario id (errors
here escape `main`, they are not caught by the per-item boundary), then run
the per-item task once with no benchmark run id. -/
def mainSingle (api : Api) (a : Argv) : Except JsError ScenarioRunResult :=
  match resolveScenarioId api a with
  | .error e => .error e
  | .ok sid => .ok (taskOf api none a.keepDevbox sid)

/-- `main().catch((err) => { console.error(err); process.exit(1); })`: an
escaping error yields exit status 1, otherwise the process exits 0. -/
def processExit {α : Type} : Except JsError α → Nat
  | .ok _ => 0
  | .error _ => 1

/-- Extract the launched item from a scheduling event. -/
def launchedItem {α : Type} : BatchEvent α → Option α
  | .launch a => some a
  | .complete _ => none

/-- The position of an external call in the per-item step order: scenario
lookup, provisioning, patch write, patch command, scoring, then teardown or
the keep report. -/
def stepKind : Event → Nat
  | .retrieve _ => 0
  | .startRun _ _ => 1
  | .writeFile _ _ _ => 2
  | .exec _ _ => 3
  | .scoreRun _ => 4
  | .completeRun _ => 5
  | .keepDevboxRunning _ => 6
  | .shutdown _ => 7

/-- The step sequence of a fully completed per-item task: the five ordered
steps, then teardown (`completeRun`) or, with the keep flag, the keep
report. -/
def fullKinds (keep : Bool) : List Nat :=
  [0, 1, 2, 3, 4, if keep then 6 else 5]

/-- A concrete scenario used to instantiate the theorems. -/
def sampleScenario : ScenarioView :=
  { id := "s1"
    name := "Example scenario"
    input_context := { problem_statement := "fix the bug" }
    metadata := []
    scoring_contract := { scoring_function_parameters := [] }
    reference_output := some "diff" }

/-- A concrete scenario without a reference solution. -/
def sampleScenarioNoRef : ScenarioView :=
  { sampleScenario with id := "s2", reference_output := none }

/-- A concrete scenario run with score 1. -/
def sampleRun : ScenarioRunView :=
  { id := "run1", devbox_id := "dbx1", scoring_contract_result := some { score := some 1 } }

/-- A concrete thrown error. -/
def boomError : JsError := { message := some "boom", str := "Error: boom" }

/-- An oracle on which every call succeeds. -/
def apiAllOk : Api :=
  { retrieve := fun scenarioId => .ok { sampleScenario with id := scenarioId }
    startRunAndAwaitEnvReady := fun _ _ => .ok sampleRun
    writeFileContents := fun _ _ _ => .ok ()
    executeSync := fun _ _ => .ok ()
    scoreAndAwait := fun _ => .ok sampleRun
    complete := fun _ => .ok ()
    listPublic := fun _ => [sampleScenario] }

/-- An oracle on which only the scenario with id `"bad"` fails (its retrieval
rejects with `boomError`). -/
def apiOneFailing : Api :=
  { apiAllOk with
    retrieve := fun scenarioId =>
      if scenarioId = "bad" then .error boomError
      else .ok { sampleScenario with id := scenarioId } }

/-- An oracle whose file-write call always rejects. -/
def apiFailWrite : Api :=
  { apiAllOk with writeFileContents := fun _ _ _ => .error boomError }

/-- An oracle whose public scenario listing is empty. -/
def apiEmptyList : Api :=
  { apiAllOk with listPublic := fun _ => [] }

theorem batches_eq_nil_iff {α : Type} (k : Nat) (items : List α) :
    batches k items = [] ↔ items = [] ∨ k = 0 := by
  cases items with
  | nil => simp [batches]
  | cons x xs =>
    rw [batches]
    by_cases h : k = 0 <;> simp [h]

theorem batches_flatten {α : Type} (k : Nat) (hk : 0 < k) (items : List α) :
    (batches k items).flatten = items := by
  induction items using batches.induct k with
  | case1 => simp [batches]
  | case2 x xs h => omega
  | case3 x xs h ih =>
    rw [batches]
    simp [h, ih, List.take_append_drop]

theorem mem_batches_length_le {α : Type} (k : Nat) (items : List α) :
    ∀ b ∈ batches k items, b.length ≤ k := by
  induction items using batches.induct k with
  | case1 => intro b hb; simp [batches] at hb
  | case2 x xs h => intro b hb; rw [batches] at hb; simp [h] at hb
  | case3 x xs h ih =>
    intro b hb
    rw [batches] at hb
    simp only [if_neg h, List.mem_cons] at hb
    rcases hb with rfl | hb
    · exact List.length_take_le k _
    · exact ih b hb

theorem mem_batches_dropLast_length {α : Type} (k : Nat) (items : List α) :
    ∀ b ∈ (batches k items).dropLast, b.length = k := by
  induction items using batches.induct k with
  | case1 => intro b hb; simp [batches] at hb
  | case2 x xs h => intro b hb; rw [batches] at hb; simp [h] at hb
  | case3 x xs h ih =>
    intro b hb
    rw [batches] at hb
    simp only [if_neg h] at hb
    by_cases hrest : batches k ((x :: xs).drop k) = []
    · rw [hrest] at hb
      simp at hb
    · rw [List.dropLast_cons_of_ne_nil hrest, List.mem_cons] at hb
      rcases hb with rfl | hb
      · rw [batches_eq_nil_iff] at hrest
        push_neg at hrest
        have hdrop : 0 < ((x :: xs).drop k).length := List.length_pos.mpr hrest.1
        rw [List.length_drop] at hdrop
        rw [List.length_take]
        omega
      · exact ih b hb

theorem runNextBatch_eq_map {α β : Type} (k : Nat) (hk : 0 < k) (task : α → β)
    (items : List α) : runNextBatch k task items = items.map task := by
  induction items using runNextBatch.induct k task with
  | case1 => simp [runNextBatch]
  | case2 x xs h => omega
  | case3 x xs h ih =>
    rw [runNextBatch, if_neg h, ih, List.map_take, List.map_drop,
      List.take_append_drop]

theorem runNextBatch_eq_batches {α β : Type} (k : Nat) (task : α → β)
    (items : List α) :
    runNextBatch k task items = (batches k items).flatMap fun b => b.map task := by
  induction items using runNextBatch.induct k task with
  | case1 => simp [runNextBatch, batches]
  | case2 x xs h => rw [runNextBatch, batches]; simp [h]
  | case3 x xs h ih => rw [runNextBatch, batches]; simp [if_neg h, ih]

theorem batchTrace_eq_batches {α : Type} (k : Nat) (items : List α) :
    batchTrace k items
      = (batches k items).flatMap fun b => b.map .launch ++ b.map .complete := by
  induction items using batchTrace.induct k with
  | case1 => simp [batchTrace, batches]
  | case2 x xs h => rw [batchTrace, batches]; simp [h]
  | case3 x xs h ih => rw [batchTrace, batches]; simp [if_neg h, ih]

theorem filterMap_const_none {α β : Type} (l : List α) :
    l.filterMap (fun _ => (none : Option β)) = [] := by
  simp [List.filterMap_eq_nil_iff]

theorem batchTrace_launches_in_order {α : Type} (k : Nat) (hk : 0 < k)
    (items : List α) :
    (batchTrace k items).filterMap launchedItem = items := by
  induction items using batchTrace.induct k with
  | case1 => simp [batchTrace]
  | case2 x xs h => omega
  | case3 x xs h ih =>
    rw [batchTrace, if_neg h]
    rw [List.filterMap_append, List.filterMap_append, ih]
    rw [List.filterMap_map, List.filterMap_map]
    have h1 : launchedItem ∘ (BatchEvent.launch : α → BatchEvent α) = some := rfl
    have h2 : launchedItem ∘ (BatchEvent.complete : α → BatchEvent α)
        = fun _ => (none : Option α) := rfl
    rw [h1, h2, List.filterMap_some, filterMap_const_none, List.append_nil,
      List.take_append_drop]

theorem launches_append {α : Type} (s t : List (BatchEvent α)) :
    launches (s ++ t) = launches s + launches t :=
  List.countP_append _ _ _

theorem completes_append {α : Type} (s t : List (BatchEvent α)) :
    completes (s ++ t) = completes s + completes t :=
  List.countP_append _ _ _

theorem launches_map_launch {α : Type} (l : List α) :
    launches (l.map .launch) = l.length := by
  simp [launches, List.countP_map, Function.comp]

theorem launches_map_complete {α : Type} (l : List α) :
    launches (l.map .complete) = 0 := by
  simp [launches, List.countP_map, Function.comp, List.countP_eq_zero]

theorem completes_map_launch {α : Type} (l : List α) :
    completes (l.map .launch) = 0 := by
  simp [completes, List.countP_map, Function.comp, List.countP_eq_zero]

theorem completes_map_complete {α : Type} (l : List α) :
    completes (l.map .complete) = l.length := by
  simp [completes, List.countP_map, Function.comp]

theorem batchTrace_inflight_bounded {α : Type} (k : Nat) (items : List α) :
    ∀ n, launches ((batchTrace k items).take n)
      ≤ completes ((batchTrace k items).take n) + k := by
  induction items using batchTrace.induct k with
  | case1 => intro n; simp [batchTrace, launches, completes]
  | case2 x xs h => intro n; rw [batchTrace]; simp [h, launches, completes]
  | case3 x xs h ih =>
    intro n
    rw [batchTrace, if_neg h]
    generalize hb2 : (x :: xs).take k = b
    generalize hT : batchTrace k ((x :: xs).drop k) = T
    have hb : b.length ≤ k := by rw [← hb2]; exact List.length_take_le k _
    have ihT : ∀ m, launches (T.take m) ≤ completes (T.take m) + k := by
      intro m; rw [← hT]; exact ih m
    rw [List.take_append_eq_append_take, List.take_append_eq_append_take]
    rw [launches_append, launches_append, completes_append, completes_append]
    rw [← List.map_take, ← List.map_take]
    rw [launches_map_launch, launches_map_complete, completes_map_launch,
      completes_map_complete]
    simp only [List.length_append, List.length_map, List.length_take]
    rcases Nat.eq_zero_or_pos (n - (b.length + b.length)) with hr | hr
    · rw [hr, List.take_zero]
      simp only [launches, completes, List.countP_nil]
      omega
    · have := ihT (n - (b.length + b.length))
      omega

theorem runScenario_startRun_error (api : Api) (s : ScenarioView)
    (brId : Option String) (keep : Bool) (e : JsError)
    (h1 : api.startRunAndAwaitEnvReady s.id brId = .error e) :
    runScenarioWithReferenceSolution api s brId keep
      = ([.startRun s.id brId], .error e) := by
  simp only [runScenarioWithReferenceSolution, h1]

theorem runScenario_write_error (api : Api) (s : ScenarioView)
    (brId : Option String) (keep : Bool) (sr : ScenarioRunView) (e : JsError)
    (h1 : api.startRunAndAwaitEnvReady s.id brId = .ok sr)
    (h2 : api.writeFileContents sr.devbox_id refPatchPath (s.reference_output.getD "")
      = .error e) :
    runScenarioWithReferenceSolution api s brId keep
      = ([.startRun s.id brId,
          .writeFile sr.devbox_id refPatchPath (s.reference_output.getD "")],
         .error e) := by
  simp only [runScenarioWithReferenceSolution, h1, h2]
  rfl

theorem runScenario_exec_error (api : Api) (s : ScenarioView)
    (brId : Option String) (keep : Bool) (sr : ScenarioRunView) (e : JsError)
    (h1 : api.startRunAndAwaitEnvReady s.id brId = .ok sr)
    (h2 : api.writeFileContents sr.devbox_id refPatchPath (s.reference_output.getD "")
      = .ok ())
    (h3 : api.executeSync sr.devbox_id patchCommand = .error e) :
    runScenarioWithReferenceSolution api s brId keep
      = ([.startRun s.id brId,
          .writeFile sr.devbox_id refPatchPath (s.reference_output.getD ""),
          .exec sr.devbox_id patchCommand],
         .error e) := by
  simp only [runScenarioWithReferenceSolution, h1, h2, h3]
  rfl

theorem runScenario_score_error (api : Api) (s : ScenarioView)
    (brId : Option String) (keep : Bool) (sr : ScenarioRunView) (e : JsError)
    (h1 : api.startRunAndAwaitEnvReady s.id brId = .ok sr)
    (h2 : api.writeFileContents sr.devbox_id refPatchPath (s.reference_output.getD "")
      = .ok ())
    (h3 : api.executeSync sr.devbox_id patchCommand = .ok ())
    (h4 : api.scoreAndAwait sr.id = .error e) :
    runScenarioWithReferenceSolution api s brId keep
      = ([.startRun s.id brId,
          .writeFile sr.devbox_id refPatchPath (s.reference_output.getD ""),
          .exec sr.devbox_id patchCommand,
          .scoreRun sr.id],
         .error e) := by
  simp only [runScenarioWithReferenceSolution, h1, h2, h3, h4]
  rfl

theorem runScenario_keep (api : Api) (s : ScenarioView)
    (brId : Option String) (sr : ScenarioRunView) (result : ScenarioRunView)
    (h1 : api.startRunAndAwaitEnvReady s.id brId = .ok sr)
    (h2 : api.writeFileContents sr.devbox_id refPatchPath (s.reference_output.getD "")
      = .ok ())
    (h3 : api.executeSync sr.devbox_id patchCommand = .ok ())
    (h4 : api.scoreAndAwait sr.id = .ok result) :
    runScenarioWithReferenceSolution api s brId true
      = ([.startRun s.id brId,
          .writeFile sr.devbox_id refPatchPath (s.reference_output.getD ""),
          .exec sr.devbox_id patchCommand,
          .scoreRun sr.id,
          .keepDevboxRunning sr.devbox_id],
         .ok result) := by
  simp only [runScenarioWithReferenceSolution, h1, h2, h3, h4]
  rfl

theorem runScenario_complete_ok (api : Api) (s : ScenarioView)
    (brId : Option String) (sr : ScenarioRunView) (result : ScenarioRunView)
    (h1 : api.startRunAndAwaitEnvReady s.id brId = .ok sr)
    (h2 : api.writeFileContents sr.devbox_id refPatchPath (s.reference_output.getD "")
      = .ok ())
    (h3 : api.executeSync sr.devbox_id patchCommand = .ok ())
    (h4 : api.scoreAndAwait sr.id = .ok result)
    (h5 : api.complete sr.id = .ok ()) :
    runScenarioWithReferenceSolution api s brId false
      = ([.startRun s.id brId,
          .writeFile sr.devbox_id refPatchPath (s.reference_output.getD ""),
          .exec sr.devbox_id patchCommand,
          .scoreRun sr.id,
          .completeRun sr.id],
         .ok result) := by
  simp only [runScenarioWithReferenceSolution, h1, h2, h3, h4, h5]
  rfl

theorem runScenario_complete_error (api : Api) (s : ScenarioView)
    (brId : Option String) (sr : ScenarioRunView) (result : ScenarioRunView)
    (e : JsError)
    (h1 : api.startRunAndAwaitEnvReady s.id brId = .ok sr)
    (h2 : api.writeFileContents sr.devbox_id refPatchPath (s.reference_output.getD "")
      = .ok ())
    (h3 : api.executeSync sr.devbox_id patchCommand = .ok ())
    (h4 : api.scoreAndAwait sr.id = .ok result)
    (h5 : api.complete sr.id = .error e) :
    runScenarioWithReferenceSolution api s brId false
      = ([.startRun s.id brId,
          .writeFile sr.devbox_id refPatchPath (s.reference_output.getD ""),
          .exec sr.devbox_id patchCommand,
          .scoreRun sr.id,
          .completeRun sr.id],
         .error e) := by
  simp only [runScenarioWithReferenceSolution, h1, h2, h3, h4, h5]
  rfl

theorem attempt_retrieve_error (api : Api) (scenarioId : String)
    (brId : Option String) (keep : Bool) (e : JsError)
    (h : api.retrieve scenarioId = .error e) :
    attemptScenarioRunWithGoldenPatch api scenarioId brId keep
      = ([.retrieve scenarioId],
         { scenario := placeholderScenario scenarioId
           run := none
           error := some (errMsg e) }) := by
  simp only [attemptScenarioRunWithGoldenPatch, h]

theorem attempt_run_error (api : Api) (scenarioId : String)
    (brId : Option String) (keep : Bool) (s : ScenarioView) (e : JsError)
    (hs : api.retrieve scenarioId = .ok s)
    (he : (runScenarioWithReferenceSolution api s brId keep).2 = .error e) :
    attemptScenarioRunWithGoldenPatch api scenarioId brId keep
      = (Event.retrieve scenarioId
          :: (runScenarioWithReferenceSolution api s brId keep).1,
         { scenario := placeholderScenario scenarioId
           run := none
           error := some (errMsg e) }) := by
  simp only [attemptScenarioRunWithGoldenPatch, hs, he]

theorem attempt_run_ok (api : Api) (scenarioId : String)
    (brId : Option String) (keep : Bool) (s : ScenarioView) (r : ScenarioRunView)
    (hs : api.retrieve scenarioId = .ok s)
    (hr : (runScenarioWithReferenceSolution api s brId keep).2 = .ok r) :
    attemptScenarioRunWithGoldenPatch api scenarioId brId keep
      = (Event.retrieve scenarioId
          :: (runScenarioWithReferenceSolution api s brId keep).1,
         { scenario := s, run := some r, error := none }) := by
  simp only [attemptScenarioRunWithGoldenPatch, hs, hr]

theorem length_filter_add_length_filter_not {α : Type} (l : List α) (p : α → Bool) :
    (l.filter p).length + (l.filter fun a => !p a).length = l.length := by
  induction l with
  | nil => rfl
  | cons a l ih =>
    simp only [List.filter_cons]
    cases h : p a <;> simp only [h, Bool.not_true, Bool.not_false, if_pos,
      if_neg, Bool.false_eq_true, not_false_iff, List.length_cons, ite_true,
      ite_false] <;> omega

/-- C1: for every finite input list the orchestration returns exactly one
outcome per item — the result is the input list mapped by the per-item task
(hence the counts agree, no item is dropped and none is duplicated) — and on
the empty input it returns the empty result with an empty schedule, so the
task is never launched. -/
theorem claim_C1_one_outcome_per_item {α β : Type} (k : Nat) (hk : 0 < k)
    (task : α → β) (items : List α) :
    runNextBatch k task items = items.map task ∧
    (runNextBatch k task items).length = items.length ∧
    runNextBatch k task ([] : List α) = [] ∧
    batchTrace k ([] : List α) = [] := by
  refine ⟨runNextBatch_eq_map k hk task items, ?_, by simp [runNextBatch],
    by simp [batchTrace]⟩
  rw [runNextBatch_eq_map k hk task items, List.length_map]

/-- Witness for C1 at concurrency 2 over three items. -/
theorem claim_C1_witness :
    0 < 2 ∧
    (runNextBatch 2 String.length ["a", "bb", "ccc"]
        = List.map String.length ["a", "bb", "ccc"] ∧
      (runNextBatch 2 String.length ["a", "bb", "ccc"]).length
        = (["a", "bb", "ccc"] : List String).length ∧
      runNextBatch 2 String.length ([] : List String) = [] ∧
      batchTrace 2 ([] : List String) = []) :=
  ⟨by decide, claim_C1_one_outcome_per_item 2 (by decide) String.length ["a", "bb", "ccc"]⟩

/-- C2: the orchestrator partitions the input into consecutive batches of at
most `k` items whose concatenation is the input, every batch but the last
having exactly `k` items; its schedule is, batch after batch, all launches
followed by all completions (so batch `N+1` launches only after batch `N` is
fully complete), the launches enumerate the input in order, and every prefix
of the schedule has at most `k` tasks in flight. -/
theorem claim_C2_batched_dispatch {α : Type} (k : Nat) (hk : 0 < k)
    (items : List α) :
    (batches k items).flatten = items ∧
    (∀ b ∈ batches k items, b.length ≤ k) ∧
    (∀ b ∈ (batches k items).dropLast, b.length = k) ∧
    batchTrace k items
      = (batches k items).flatMap (fun b => b.map .launch ++ b.map .complete) ∧
    (batchTrace k items).filterMap launchedItem = items ∧
    ∀ n, launches ((batchTrace k items).take n)
      ≤ completes ((batchTrace k items).take n) + k :=
  ⟨batches_flatten k hk items, mem_batches_length_le k items,
    mem_batches_dropLast_length k items, batchTrace_eq_batches k items,
    batchTrace_launches_in_order k hk items, batchTrace_inflight_bounded k items⟩

/-- Witness for C2 at concurrency 2 over five items: the batches are
`[A,B]`, `[C,D]`, `[E]`; the schedule is well formed and the in-flight bound
holds at the cut after the third launch. -/
theorem claim_C2_witness :
    0 < 2 ∧
    (batches 2 ["A", "B", "C", "D", "E"]).flatten = ["A", "B", "C", "D", "E"] ∧
    (["E"] ∈ batches 2 ["A", "B", "C", "D", "E"] ∧ (["E"] : List String).length ≤ 2) ∧
    (["A", "B"] ∈ (batches 2 ["A", "B", "C", "D", "E"]).dropLast ∧
      (["A", "B"] : List String).length = 2) ∧
    batchTrace 2 ["A", "B", "C", "D", "E"]
      = (batches 2 ["A", "B", "C", "D", "E"]).flatMap
          (fun b => b.map .launch ++ b.map .complete) ∧
    (batchTrace 2 ["A", "B", "C", "D", "E"]).filterMap launchedItem
      = ["A", "B", "C", "D", "E"] ∧
    launches ((batchTrace 2 ["A", "B", "C", "D", "E"]).take 5)
      ≤ completes ((batchTrace 2 ["A", "B", "C", "D", "E"]).take 5) + 2 := by
  have h := claim_C2_batched_dispatch 2 (by decide) ["A", "B", "C", "D", "E"]
  have hmem1 : ["E"] ∈ batches 2 ["A", "B", "C", "D", "E"] := by simp [batches]
  have hmem2 : ["A", "B"] ∈ (batches 2 ["A", "B", "C", "D", "E"]).dropLast := by
    simp [batches]
  exact ⟨by decide, h.1, ⟨hmem1, h.2.1 ["E"] hmem1⟩,
    ⟨hmem2, h.2.2.1 ["A", "B"] hmem2⟩, h.2.2.2.1, h.2.2.2.2.1,
    h.2.2.2.2.2 5⟩

/-- C4: the summary counts partition the results — successes plus failures
is the total, and successes scoring exactly 1 plus successes scoring other
than 1 is the number of successes. -/
theorem claim_C4_summary_partition (results : List ScenarioRunResult) :
    (successes results).length + (failures results).length = results.length ∧
    (successAndPassing results).length + (successAndFailing results).length
      = (successes results).length := by
  constructor
  · exact length_filter_add_length_filter_not results runCompleted
  · have h := length_filter_add_length_filter_not (successes results)
      fun r => decide (score r = some 1)
    simpa [successAndPassing, successAndFailing, decide_not] using h

/-- C3: if the per-item task fails for one specific item (its lookup or its
run rejects with error `e`) and succeeds for every other item, the batch
result maps every item to its single outcome (no cancellation, no retry),
the failing item's outcome is a failure carrying `e.message` verbatim (or
`String(e)` when the message is missing), and every other item's outcome is
a success. -/
theorem claim_C3_failure_isolation (api : Api) (brId : Option String)
    (keep : Bool) (k : Nat) (hk : 0 < k) (items : List String) (bad : String)
    (e : JsError)
    (hbad : api.retrieve bad = .error e ∨
      ∃ s, api.retrieve bad = .ok s ∧
        (runScenarioWithReferenceSolution api s brId keep).2 = .error e)
    (hgood : ∀ x ∈ items, x ≠ bad →
      ∃ s r, api.retrieve x = .ok s ∧
        (runScenarioWithReferenceSolution api s brId keep).2 = .ok r) :
    runNextBatch k (taskOf api brId keep) items = items.map (taskOf api brId keep) ∧
    taskOf api brId keep bad
      = { scenario := placeholderScenario bad, run := none, error := some (errMsg e) } ∧
    runCompleted (taskOf api brId keep bad) = false ∧
    (taskOf api brId keep bad).error = some (errMsg e) ∧
    ∀ x ∈ items, x ≠ bad → runCompleted (taskOf api brId keep x) = true := by
  have htask : taskOf api brId keep bad
      = { scenario := placeholderScenario bad, run := none, error := some (errMsg e) } := by
    rcases hbad with h | ⟨s, hs, he⟩
    · rw [taskOf, attempt_retrieve_error api bad brId keep e h]
    · rw [taskOf, attempt_run_error api bad brId keep s e hs he]
  refine ⟨runNextBatch_eq_map k hk _ items, htask, ?_, ?_, ?_⟩
  · rw [htask]; rfl
  · rw [htask]
  · intro x hx hne
    obtain ⟨s, r, hs, hr⟩ := hgood x hx hne
    rw [taskOf, attempt_run_ok api x brId keep s r hs hr]
    rfl

/-- Witness for C3: three items of which the middle one fails at retrieval;
the batch result maps all three, the bad item carries the message `"boom"`
verbatim, and the first item still succeeds. -/
theorem claim_C3_witness :
    0 < 2 ∧
    apiOneFailing.retrieve "bad" = .error boomError ∧
    runNextBatch 2 (taskOf apiOneFailing none false) ["g1", "bad", "g2"]
      = List.map (taskOf apiOneFailing none false) ["g1", "bad", "g2"] ∧
    taskOf apiOneFailing none false "bad"
      = { scenario := placeholderScenario "bad", run := none
          error := some (errMsg boomError) } ∧
    runCompleted (taskOf apiOneFailing none false "bad") = false ∧
    (taskOf apiOneFailing none false "bad").error = some "boom" ∧
    runCompleted (taskOf apiOneFailing none false "g1") = true := by
  have hret : apiOneFailing.retrieve "bad" = .error boomError := by
    simp [apiOneFailing, apiAllOk]
  have hbad : apiOneFailing.retrieve "bad" = .error boomError ∨
      ∃ s, apiOneFailing.retrieve "bad" = .ok s ∧
        (runScenarioWithReferenceSolution apiOneFailing s none false).2
          = .error boomError :=
    Or.inl hret
  have hgood : ∀ x ∈ ["g1", "bad", "g2"], x ≠ "bad" →
      ∃ s r, apiOneFailing.retrieve x = .ok s ∧
        (runScenarioWithReferenceSolution apiOneFailing s none false).2 = .ok r := by
    intro x hx hne
    refine ⟨{ sampleScenario with id := x }, sampleRun, ?_, ?_⟩
    · simp [apiOneFailing, apiAllOk, hne]
    · rw [runScenario_complete_ok apiOneFailing { sampleScenario with id := x }
        none sampleRun sampleRun rfl rfl rfl rfl rfl]
  have h := claim_C3_failure_isolation apiOneFailing none false 2 (by decide)
    ["g1", "bad", "g2"] "bad" boomError hbad hgood
  exact ⟨by decide, hret, h.1, h.2.1, h.2.2.1, h.2.2.2.1,
    h.2.2.2.2 "g1" (by decide) (by decide)⟩

/-- C5: the per-item task performs its external calls in the fixed order
lookup, provisioning, patch write, patch command, scoring, then teardown or
keep-report — every trace is a prefix of that sequence, a trace of a
non-failing task is the whole sequence, and when any step throws the trace
stops there (proper prefix).  When all five steps succeed: with the keep
flag the devbox is reported kept (its identifier in the final event) and no
run-completion call is made; without it the run-completion call is made. -/
theorem claim_C5_step_order (api : Api) (scenarioId : String)
    (brId : Option String) (keep : Bool) :
    (attemptScenarioRunWithGoldenPatch api scenarioId brId keep).1.map stepKind
      <+: fullKinds keep ∧
    ((attemptScenarioRunWithGoldenPatch api scenarioId brId keep).2.error = none →
      (attemptScenarioRunWithGoldenPatch api scenarioId brId keep).1.map stepKind
        = fullKinds keep) ∧
    ∀ s sr result,
      api.retrieve scenarioId = .ok s →
      api.startRunAndAwaitEnvReady s.id brId = .ok sr →
      api.writeFileContents sr.devbox_id refPatchPath (s.reference_output.getD "")
        = .ok () →
      api.executeSync sr.devbox_id patchCommand = .ok () →
      api.scoreAndAwait sr.id = .ok result →
      (keep = true →
        (attemptScenarioRunWithGoldenPatch api scenarioId brId keep).1
          = [.retrieve scenarioId, .startRun s.id brId,
             .writeFile sr.devbox_id refPatchPath (s.reference_output.getD ""),
             .exec sr.devbox_id patchCommand, .scoreRun sr.id,
             .keepDevboxRunning sr.devbox_id] ∧
        ∀ rid, Event.completeRun rid
          ∉ (attemptScenarioRunWithGoldenPatch api scenarioId brId keep).1) ∧
      (keep = false →
        Event.completeRun sr.id
          ∈ (attemptScenarioRunWithGoldenPatch api scenarioId brId keep).1) := by
  cases hret : api.retrieve scenarioId with
  | error e =>
    rw [attempt_retrieve_error api scenarioId brId keep e hret]
    refine ⟨⟨[1, 2, 3, 4, if keep then 6 else 5], rfl⟩, ?_, ?_⟩
    · intro h; simp at h
    · intro s sr result hs _ _ _ _
      simp at hs
  | ok s =>
    cases hsr : api.startRunAndAwaitEnvReady s.id brId with
    | error e =>
      have hrun := runScenario_startRun_error api s brId keep e hsr
      have h2 : (runScenarioWithReferenceSolution api s brId keep).2 = .error e := by
        rw [hrun]
      rw [attempt_run_error api scenarioId brId keep s e hret h2, hrun]
      refine ⟨⟨[2, 3, 4, if keep then 6 else 5], rfl⟩, ?_, ?_⟩
      · intro h; simp at h
      · intro s' sr' result' hs' hsr' _ _ _
        injection hs' with hss
        subst hss
        rw [hsr] at hsr'; simp at hsr'
    | ok sr =>
      cases hw : api.writeFileContents sr.devbox_id refPatchPath
          (s.reference_output.getD "") with
      | error e =>
        have hrun := runScenario_write_error api s brId keep sr e hsr hw
        have h2 : (runScenarioWithReferenceSolution api s brId keep).2 = .error e := by
          rw [hrun]
        rw [attempt_run_error api scenarioId brId keep s e hret h2, hrun]
        refine ⟨⟨[3, 4, if keep then 6 else 5], rfl⟩, ?_, ?_⟩
        · intro h; simp at h
        · intro s' sr' result' hs' hsr' hw' _ _
          injection hs' with hss
          subst hss
          rw [hsr] at hsr'
          injection hsr' with hsrr
          subst hsrr
          rw [hw] at hw'; simp at hw'
      | ok u =>
        cases u
        cases hx : api.executeSync sr.devbox_id patchCommand with
        | error e =>
          have hrun := runScenario_exec_error api s brId keep sr e hsr hw hx
          have h2 : (runScenarioWithReferenceSolution api s brId keep).2 = .error e := by
            rw [hrun]
          rw [attempt_run_error api scenarioId brId keep s e hret h2, hrun]
          refine ⟨⟨[4, if keep then 6 else 5], rfl⟩, ?_, ?_⟩
          · intro h; simp at h
          · intro s' sr' result' hs' hsr' _ hx' _
            injection hs' with hss
            subst hss
            rw [hsr] at hsr'
            injection hsr' with hsrr
            subst hsrr
            rw [hx] at hx'; simp at hx'
        | ok u =>
          cases u
          cases hsc : api.scoreAndAwait sr.id with
          | error e =>
            have hrun := runScenario_score_error api s brId keep sr e hsr hw hx hsc
            have h2 : (runScenarioWithReferenceSolution api s brId keep).2
                = .error e := by rw [hrun]
            rw [attempt_run_error api scenarioId brId keep s e hret h2, hrun]
            refine ⟨⟨[if keep then 6 else 5], rfl⟩, ?_, ?_⟩
            · intro h; simp at h
            · intro s' sr' result' hs' hsr' _ _ hsc'
              injection hs' with hss
              subst hss
              rw [hsr] at hsr'
              injection hsr' with hsrr
              subst hsrr
              rw [hsc] at hsc'; simp at hsc'
          | ok result =>
            cases keep with
            | true =>
              have hrun := runScenario_keep api s brId sr result hsr hw hx hsc
              have h2 : (runScenarioWithReferenceSolution api s brId true).2
                  = .ok result := by rw [hrun]
              rw [attempt_run_ok api scenarioId brId true s result hret h2, hrun]
              refine ⟨⟨[], by simp [fullKinds, stepKind]⟩, fun _ => by simp [fullKinds, stepKind], ?_⟩
              intro s' sr' result' hs' hsr' _ _ hsc'
              injection hs' with hss
              subst hss
              rw [hsr] at hsr'
              injection hsr' with hsrr
              subst hsrr
              rw [hsc] at hsc'
              injection hsc' with hscr
              subst hscr
              refine ⟨fun _ => ⟨rfl, ?_⟩, fun h => by simp at h⟩
              intro rid h
              simp at h
            | false =>
              cases hc : api.complete sr.id with
              | error e =>
                have hrun := runScenario_complete_error api s brId sr result e
                  hsr hw hx hsc hc
                have h2 : (runScenarioWithReferenceSolution api s brId false).2
                    = .error e := by rw [hrun]
                rw [attempt_run_error api scenarioId brId false s e hret h2, hrun]
                refine ⟨⟨[], by simp [fullKinds, stepKind]⟩, ?_, ?_⟩
                · intro h; simp at h
                · intro s' sr' result' hs' hsr' _ _ hsc'
                  injection hs' with hss
                  subst hss
                  rw [hsr] at hsr'
                  injection hsr' with hsrr
                  subst hsrr
                  refine ⟨fun h => by simp at h, fun _ => ?_⟩
                  simp
              | ok u =>
                cases u
                have hrun := runScenario_complete_ok api s brId sr result
                  hsr hw hx hsc hc
                have h2 : (runScenarioWithReferenceSolution api s brId false).2
                    = .ok result := by rw [hrun]
                rw [attempt_run_ok api scenarioId brId false s result hret h2, hrun]
                refine ⟨⟨[], by simp [fullKinds, stepKind]⟩, fun _ => by simp [fullKinds, stepKind], ?_⟩
                intro s' sr' result' hs' hsr' _ _ hsc'
                injection hs' with hss
                subst hss
                rw [hsr] at hsr'
                injection hsr' with hsrr
                subst hsrr
                refine ⟨fun h => by simp at h, fun _ => ?_⟩
                simp

/-- Witness for C5: on the all-success oracle without the keep flag, the
trace is a prefix of the full step sequence and the run-completion call for
the sample run is made. -/
theorem claim_C5_witness :
    (attemptScenarioRunWithGoldenPatch apiAllOk "s1" none false).1.map stepKind
      <+: fullKinds false ∧
    Event.completeRun sampleRun.id
      ∈ (attemptScenarioRunWithGoldenPatch apiAllOk "s1" none false).1 :=
  ⟨(claim_C5_step_order apiAllOk "s1" none false).1,
   ((claim_C5_step_order apiAllOk "s1" none false).2.2
      { sampleScenario with id := "s1" } sampleRun sampleRun
      rfl rfl rfl rfl rfl).2 rfl⟩

/-- C6: when the per-item task fails after its environment was provisioned
(the failure is in the file-write, command-execution or scoring step), the
outcome is the failure carrying that error, and the trace contains no
run-completion call, no shutdown call, and no keep report — the provisioned
environment is simply left running. -/
theorem claim_C6_no_teardown_on_failure (api : Api) (scenarioId : String)
    (brId : Option String) (keep : Bool) (s : ScenarioView)
    (sr : ScenarioRunView) (e : JsError)
    (hs : api.retrieve scenarioId = .ok s)
    (h1 : api.startRunAndAwaitEnvReady s.id brId = .ok sr)
    (hfail :
      api.writeFileContents sr.devbox_id refPatchPath (s.reference_output.getD "")
        = .error e
      ∨ (api.writeFileContents sr.devbox_id refPatchPath (s.reference_output.getD "")
          = .ok () ∧ api.executeSync sr.devbox_id patchCommand = .error e)
      ∨ (api.writeFileContents sr.devbox_id refPatchPath (s.reference_output.getD "")
          = .ok () ∧ api.executeSync sr.devbox_id patchCommand = .ok ()
          ∧ api.scoreAndAwait sr.id = .error e)) :
    (attemptScenarioRunWithGoldenPatch api scenarioId brId keep).2.error
      = some (errMsg e) ∧
    (∀ rid, Event.completeRun rid
      ∉ (attemptScenarioRunWithGoldenPatch api scenarioId brId keep).1) ∧
    (∀ d, Event.shutdown d
      ∉ (attemptScenarioRunWithGoldenPatch api scenarioId brId keep).1) ∧
    (∀ d, Event.keepDevboxRunning d
      ∉ (attemptScenarioRunWithGoldenPatch api scenarioId brId keep).1) := by
  rcases hfail with hw | ⟨hw, hx⟩ | ⟨hw, hx, hsc⟩
  · have hrun := runScenario_write_error api s brId keep sr e h1 hw
    have h2 : (runScenarioWithReferenceSolution api s brId keep).2 = .error e := by
      rw [hrun]
    rw [attempt_run_error api scenarioId brId keep s e hs h2, hrun]
    refine ⟨rfl, ?_, ?_, ?_⟩ <;> intro z hmem <;> simp at hmem
  · have hrun := runScenario_exec_error api s brId keep sr e h1 hw hx
    have h2 : (runScenarioWithReferenceSolution api s brId keep).2 = .error e := by
      rw [hrun]
    rw [attempt_run_error api scenarioId brId keep s e hs h2, hrun]
    refine ⟨rfl, ?_, ?_, ?_⟩ <;> intro z hmem <;> simp at hmem
  · have hrun := runScenario_score_error api s brId keep sr e h1 hw hx hsc
    have h2 : (runScenarioWithReferenceSolution api s brId keep).2 = .error e := by
      rw [hrun]
    rw [attempt_run_error api scenarioId brId keep s e hs h2, hrun]
    refine ⟨rfl, ?_, ?_, ?_⟩ <;> intro z hmem <;> simp at hmem

/-- Witness for C6: the oracle whose file write rejects, at scenario
`"s1"`. -/
theorem claim_C6_witness :
    (attemptScenarioRunWithGoldenPatch apiFailWrite "s1" none false).2.error
      = some (errMsg boomError) ∧
    Event.completeRun sampleRun.id
      ∉ (attemptScenarioRunWithGoldenPatch apiFailWrite "s1" none false).1 ∧
    Event.shutdown sampleRun.devbox_id
      ∉ (attemptScenarioRunWithGoldenPatch apiFailWrite "s1" none false).1 ∧
    Event.keepDevboxRunning sampleRun.devbox_id
      ∉ (attemptScenarioRunWithGoldenPatch apiFailWrite "s1" none false).1 := by
  have h := claim_C6_no_teardown_on_failure apiFailWrite "s1" none false
    { sampleScenario with id := "s1" } sampleRun boomError rfl rfl (Or.inl rfl)
  exact ⟨h.1, h.2.1 sampleRun.id, h.2.2.1 sampleRun.devbox_id,
    h.2.2.2 sampleRun.devbox_id⟩

/-- C9: whenever the per-item task fails, at any step — including after the
scenario was already retrieved — the failure outcome carries the freshly
built placeholder scenario holding only the requested id: its name is empty
and the run field is absent; the retrieved scenario details are discarded. -/
theorem claim_C9_failure_scenario_placeholder (api : Api) (scenarioId : String)
    (brId : Option String) (keep : Bool)
    (h : (taskOf api brId keep scenarioId).error.isSome = true) :
    (taskOf api brId keep scenarioId).scenario = placeholderScenario scenarioId ∧
    (taskOf api brId keep scenarioId).scenario.id = scenarioId ∧
    (taskOf api brId keep scenarioId).scenario.name = "" ∧
    (taskOf api brId keep scenarioId).run = none := by
  cases hret : api.retrieve scenarioId with
  | error e =>
    rw [taskOf, attempt_retrieve_error api scenarioId brId keep e hret]
    exact ⟨rfl, rfl, rfl, rfl⟩
  | ok s =>
    cases hrun : (runScenarioWithReferenceSolution api s brId keep).2 with
    | error e =>
      rw [taskOf, attempt_run_error api scenarioId brId keep s e hret hrun]
      exact ⟨rfl, rfl, rfl, rfl⟩
    | ok r =>
      rw [taskOf, attempt_run_ok api scenarioId brId keep s r hret hrun] at h
      simp at h

/-- Witness for C9: the oracle failing at `"bad"` has `error` present, and
the outcome's scenario is the placeholder even though a name-carrying
scenario would have been retrievable. -/
theorem claim_C9_witness :
    (taskOf apiOneFailing none false "bad").error.isSome = true ∧
    (taskOf apiOneFailing none false "bad").scenario = placeholderScenario "bad" ∧
    (taskOf apiOneFailing none false "bad").scenario.id = "bad" ∧
    (taskOf apiOneFailing none false "bad").scenario.name = "" ∧
    (taskOf apiOneFailing none false "bad").run = none := by
  have hp : (taskOf apiOneFailing none false "bad").error.isSome = true := by
    simp [taskOf, attemptScenarioRunWithGoldenPatch, apiOneFailing, apiAllOk]
  have h := claim_C9_failure_scenario_placeholder apiOneFailing "bad" none false hp
  exact ⟨hp, h.1, h.2.1, h.2.2.1, h.2.2.2⟩

/-- C10: when a scenario's reference solution is absent, the file-write
step writes the empty string as the patch contents instead of failing: the
write event with contents `""` is in the trace, and if the write call itself
succeeds the task proceeds to the patch command — a missing reference
solution alone never fails the write step. -/
theorem claim_C10_missing_reference_writes_empty (api : Api) (s : ScenarioView)
    (brId : Option String) (keep : Bool) (sr : ScenarioRunView)
    (href : s.reference_output = none)
    (h1 : api.startRunAndAwaitEnvReady s.id brId = .ok sr) :
    Event.writeFile sr.devbox_id refPatchPath ""
      ∈ (runScenarioWithReferenceSolution api s brId keep).1 ∧
    (api.writeFileContents sr.devbox_id refPatchPath "" = .ok () →
      Event.exec sr.devbox_id patchCommand
        ∈ (runScenarioWithReferenceSolution api s brId keep).1) := by
  have hc : s.reference_output.getD "" = "" := by rw [href]; rfl
  cases hw : api.writeFileContents sr.devbox_id refPatchPath
      (s.reference_output.getD "") with
  | error e =>
    have hrun := runScenario_write_error api s brId keep sr e h1 hw
    rw [hrun, hc]
    refine ⟨by simp, ?_⟩
    intro hok
    rw [hc] at hw
    rw [hw] at hok
    simp at hok
  | ok u =>
    cases u
    cases hx : api.executeSync sr.devbox_id patchCommand with
    | error e =>
      have hrun := runScenario_exec_error api s brId keep sr e h1 hw hx
      rw [hrun, hc]
      exact ⟨by simp, fun _ => by simp⟩
    | ok u =>
      cases u
      cases hsc : api.scoreAndAwait sr.id with
      | error e =>
        have hrun := runScenario_score_error api s brId keep sr e h1 hw hx hsc
        rw [hrun, hc]
        exact ⟨by simp, fun _ => by simp⟩
      | ok result =>
        cases keep with
        | true =>
          have hrun := runScenario_keep api s brId sr result h1 hw hx hsc
          rw [hrun, hc]
          exact ⟨by simp, fun _ => by simp⟩
        | false =>
          cases hcomp : api.complete sr.id with
          | error e =>
            have hrun := runScenario_complete_error api s brId sr result e
              h1 hw hx hsc hcomp
            rw [hrun, hc]
            exact ⟨by simp, fun _ => by simp⟩
          | ok u =>
            cases u
            have hrun := runScenario_complete_ok api s brId sr result
              h1 hw hx hsc hcomp
            rw [hrun, hc]
            exact ⟨by simp, fun _ => by simp⟩

/-- Witness for C10: the all-success oracle on the scenario without a
reference solution. -/
theorem claim_C10_witness :
    Event.writeFile sampleRun.devbox_id refPatchPath ""
      ∈ (runScenarioWithReferenceSolution apiAllOk sampleScenarioNoRef none false).1 ∧
    Event.exec sampleRun.devbox_id patchCommand
      ∈ (runScenarioWithReferenceSolution apiAllOk sampleScenarioNoRef none false).1 := by
  have h := claim_C10_missing_reference_writes_empty apiAllOk sampleScenarioNoRef
    none false sampleRun rfl rfl
  exact ⟨h.1, h.2 rfl⟩

/-- C7 counterexample: providing both `--scenario-id` and `--scenario-name`
(and no `--benchmark-id`) is accepted by argument validation, refuting the
claim that the parse fails whenever more than one of the three selectors is
provided. -/
theorem claim_C7_counterexample :
    (Argv.mk none (some "sid") (some "snm") false false).scenarioId.isSome = true ∧
    (Argv.mk none (some "sid") (some "snm") false false).scenarioName.isSome = true ∧
    parseArgs (Argv.mk none (some "sid") (some "snm") false false)
      = .ok (Argv.mk none (some "sid") (some "snm") false false) := by
  refine ⟨rfl, rfl, ?_⟩
  simp [parseArgs, conflictsCheck, selectorsCheck, strTruthy]

/-- C7 (amended): validation fails exactly when no selector has a truthy
value, or when `--benchmark-id` is present together with `--scenario-id` or
`--scenario-name`; in particular `--scenario-id` with `--scenario-name` and
no `--benchmark-id` passes. -/
theorem claim_C7_selector_validation (a : Argv) :
    (parseArgs a).isOk = true ↔
      ((strTruthy a.benchmarkId || strTruthy a.scenarioId
          || strTruthy a.scenarioName) = true ∧
        ¬(a.benchmarkId.isSome = true ∧
          (a.scenarioId.isSome = true ∨ a.scenarioName.isSome = true))) := by
  simp only [parseArgs, conflictsCheck, selectorsCheck]
  cases h1 : a.benchmarkId.isSome <;>
    cases h2 : a.scenarioId.isSome <;>
      cases h3 : a.scenarioName.isSome <;>
        cases h4 : strTruthy a.benchmarkId <;>
          cases h5 : strTruthy a.scenarioId <;>
            cases h6 : strTruthy a.scenarioName <;>
              simp_all [Except.isOk, Except.toBool]

/-- C8: with a truthy `--scenario-name` and no truthy `--scenario-id`, a
lookup returning zero matches is a fatal error: resolution returns the
"not found" error, the whole single-scenario path rejects with it (it is
never converted into a per-item failure outcome), and the process exits
with status 1; a lookup returning at least one match resolves to the first
match's id. -/
theorem claim_C8_name_lookup_zero_matches (api : Api) (a : Argv) (name : String)
    (hname : a.scenarioName = some name)
    (hsid : strTruthy a.scenarioId = false)
    (hnm : name ≠ "") :
    (api.listPublic name = [] →
      resolveScenarioId api a
        = .error (jsErrorOfMessage ("Scenario with name " ++ name ++ " not found")) ∧
      mainSingle api a
        = .error (jsErrorOfMessage ("Scenario with name " ++ name ++ " not found")) ∧
      processExit (mainSingle api a) = 1) ∧
    ∀ s rest, api.listPublic name = s :: rest → s.id ≠ "" →
      resolveScenarioId api a = .ok s.id := by
  have hcond : (!strTruthy a.scenarioId && strTruthy (some name)) = true := by
    rw [hsid]
    simp [strTruthy, hnm]
  constructor
  · intro hlist
    have hres : resolveScenarioId api a
        = .error (jsErrorOfMessage ("Scenario with name " ++ name ++ " not found")) := by
      simp only [resolveScenarioId, hname, Option.getD_some]
      rw [hcond]
      simp [hlist]
    refine ⟨hres, ?_, ?_⟩
    · rw [mainSingle, hres]
    · rw [mainSingle, hres]
      rfl
  · intro s rest hlist hid
    simp only [resolveScenarioId, hname, Option.getD_some]
    rw [hcond]
    simp [hlist, strTruthy, hid]

/-- Witness for C8: the oracle with an empty public listing, name `"nm"`. -/
theorem claim_C8_witness :
    apiEmptyList.listPublic "nm" = [] ∧
    resolveScenarioId apiEmptyList (Argv.mk none none (some "nm") false false)
      = .error (jsErrorOfMessage ("Scenario with name " ++ "nm" ++ " not found")) ∧
    mainSingle apiEmptyList (Argv.mk none none (some "nm") false false)
      = .error (jsErrorOfMessage ("Scenario with name " ++ "nm" ++ " not found")) ∧
    processExit (mainSingle apiEmptyList (Argv.mk none none (some "nm") false false)) = 1 := by
  have h := (claim_C8_name_lookup_zero_matches apiEmptyList
    (Argv.mk none none (some "nm") false false) "nm" rfl rfl (by decide)).1 rfl
  exact ⟨rfl, h.1, h.2.1, h.2.2⟩

end PublicBenchmark
